import Mathlib

/-!
Verification of the LeadgenORSAM pipeline frontend and of the job
orchestration engine it talks to.  Data model and frontend operations are
embedded from the TypeScript sources (src/unnamed/part_000 = the api client
module, src/unnamed/part_001 = StatsBar, src/frontend/src/hooks/usePipeline.ts,
src/frontend/src/components/ResultsTable.tsx, ApolloForm.tsx).  Backend
components (scorer, result aggregator, job registry, pipeline runner), which
live in the repository's `api.server` package outside src/, are modelled from
the specification, each marked `Modelled from the spec:` in its doc comment.
-/

namespace Leadgen

/-- The `Lead` record, from the api client module (src/unnamed/part_000,
lines 15-29): every field independently optional. -/
structure Lead where
  first_name : Option String := none
  last_name : Option String := none
  company : Option String := none
  job_title : Option String := none
  location : Option String := none
  email : Option String := none
  phone : Option String := none
  linkedin_url : Option String := none
  website : Option String := none
  hit_score : Option Nat := none
  is_hit : Option Bool := none
  activity_summary : Option String := none
  conversion_angle : Option String := none
deriving Repr, DecidableEq

/-- Modelled from the spec: the configured hit threshold (default 50), used by
the backend scorer, which is absent from src/ (only displayed by the frontend:
"seuil hit: 50" in StatsBar, and the `>= 50` colour rule in ResultsTable). -/
def hitThreshold : Nat := 50

/-- Modelled from the spec: the backend Scorer stage (absent from src/):
`score = 40*hasEmail + 30*hasProfileUrl + 20*hasPhone + 10*hasWebsite`,
each term its full weight or zero.  The profile URL is the lead's
`linkedin_url` field. -/
def leadScore (l : Lead) : Nat :=
  (if l.email.isSome then 40 else 0) +
  (if l.linkedin_url.isSome then 30 else 0) +
  (if l.phone.isSome then 20 else 0) +
  (if l.website.isSome then 10 else 0)

/-- Modelled from the spec: the Scorer stage writes `hit_score` and
`is_hit = (score >= hitThreshold)` onto the lead. -/
def scoreLead (l : Lead) : Lead :=
  { l with hit_score := some (leadScore l),
           is_hit := some (decide (hitThreshold ≤ leadScore l)) }

/-- The `JobStats` record, from the api client module (src/unnamed/part_000,
lines 7-13). -/
structure JobStats where
  email_pct : Nat
  linkedin_pct : Nat
  phone_pct : Nat
  website_pct : Nat
  avg_score : Nat
deriving Repr, DecidableEq

/-- Round-half-up of the nonnegative fraction `a / b` (`b > 0`):
`floor (a/b + 1/2)` computed in integer arithmetic. -/
def roundHalfUp (a b : Nat) : Nat := (2 * a + b) / (2 * b)

/-- Modelled from the spec: a coverage percentage of the backend Result
Aggregator (absent from src/): round-half-up of `100 * count / total`,
defined as `0` when `total = 0` (division by zero must not raise). -/
def pct (count total : Nat) : Nat :=
  if total = 0 then 0 else roundHalfUp (100 * count) total

/-- Number of leads satisfying a field-presence test. -/
def countWith (p : Lead → Bool) (leads : List Lead) : Nat := leads.countP p

/-- Modelled from the spec: the backend Result Aggregator (absent from src/),
a pure function of the final lead list producing `JobStats`; the average score
is also round-half-up, and `0` on an empty list. -/
def computeStats (leads : List Lead) : JobStats :=
  let n := leads.length
  { email_pct := pct (countWith (fun l => l.email.isSome) leads) n
    linkedin_pct := pct (countWith (fun l => l.linkedin_url.isSome) leads) n
    phone_pct := pct (countWith (fun l => l.phone.isSome) leads) n
    website_pct := pct (countWith (fun l => l.website.isSome) leads) n
    avg_score :=
      if n = 0 then 0
      else roundHalfUp ((leads.map (fun l => l.hit_score.getD 0)).sum) n }

/-- From StatsBar (src/unnamed/part_001, line 31): the hit-rate percentage,
`Math.round((hit_leads / total_leads) * 100)` when `total_leads > 0`, else 0;
`Math.round` on a nonnegative value is round-half-up. -/
def hitRate (total_leads hit_leads : Nat) : Nat :=
  if 0 < total_leads then roundHalfUp (100 * hit_leads) total_leads else 0

/-- The `ProgressEvent` record, from src/frontend/src/hooks/usePipeline.ts,
lines 4-10.  Progress fractions are modelled as exact rationals. -/
structure ProgressEvent where
  step : Nat
  step_name : String
  message : String
  progress : ℚ
  total_progress : ℚ
deriving Repr, DecidableEq

/-- The last `n` elements of a list, in order: the meaning of the JavaScript
`slice(-n)` (the whole list when it is shorter than `n`). -/
def lastN (n : Nat) (l : List α) : List α := l.drop (l.length - n)

/-- From usePipeline.ts line 52: on each `progress` stream event the hook
stores `[...s.events.slice(-99), event]`. -/
def appendEvent (events : List ProgressEvent) (e : ProgressEvent) :
    List ProgressEvent :=
  lastN 99 events ++ [e]

/-- Job status as exposed by the api (`'running' | 'done' | 'error'`,
src/unnamed/part_000 line 33). -/
inductive JobStatus where
  | running
  | done
  | error
deriving Repr, DecidableEq

/-- The `JobResult` record, from the api client module (src/unnamed/part_000,
lines 31-41).  `stats` is modelled as optional: the spec's fetch-result
contract returns a running-status partial view with *no stats* before
completion (the TypeScript declaration types the field as always present,
but the backend that fills it is absent from src/). -/
structure JobResult where
  job_id : String
  status : JobStatus
  total_leads : Nat
  hit_leads : Nat
  nohit_leads : Nat
  stats : Option JobStats
  leads : List Lead
  error : Option String := none
  csv_path : Option String := none
deriving Repr, DecidableEq

/-- Pipeline status of the frontend hook
(src/frontend/src/hooks/usePipeline.ts, line 12). -/
inductive PipelineStatus where
  | idle
  | running
  | done
  | error
deriving Repr, DecidableEq

/-- The `PipelineState` record of the frontend hook (usePipeline.ts,
lines 14-21). -/
structure PipelineState where
  status : PipelineStatus
  jobId : Option String
  events : List ProgressEvent
  latestEvent : Option ProgressEvent
  result : Option JobResult
  error : Option String
deriving Repr, DecidableEq

/-- The initial hook state (usePipeline.ts, lines 24-31). -/
def initialState : PipelineState :=
  { status := .idle, jobId := none, events := [], latestEvent := none,
    result := none, error := none }

/-- Full state of the `usePipeline` hook: the React `PipelineState` plus
whether an attached open `EventSource` currently exists (`esRef.current`). -/
structure HookState where
  state : PipelineState
  esOpen : Bool
deriving Repr, DecidableEq

/-- The hook before any pipeline was started: initial state, no stream. -/
def initialHook : HookState := { state := initialState, esOpen := false }

/-- From usePipeline.ts lines 95-99: `reset` closes any open event stream
(`esRef.current?.close(); esRef.current = null`) and restores the initial
state verbatim. -/
def reset (_h : HookState) : HookState :=
  { state := { status := .idle, jobId := none, events := [], latestEvent := none,
               result := none, error := none },
    esOpen := false }

/-- From usePipeline.ts lines 36-45: the state of the hook right after
`startPipeline` obtained a job id and opened the stream: fresh running state
with the job id set and an open `EventSource`. -/
def afterStart (jid : String) (_h : HookState) : HookState :=
  { state := { status := .running, jobId := some jid, events := [],
               latestEvent := none, result := none, error := none },
    esOpen := true }

/-- The three server-sent event types of the progress stream
(usePipeline.ts lines 47-74): `progress` carries a `ProgressEvent`, `done`
carries nothing further, `error` carries an optional message payload
(`payload.data?.message`, possibly unparsable). -/
inductive StreamEvent where
  | progress (e : ProgressEvent)
  | done
  | error (data : Option String)
deriving Repr, DecidableEq

/-- From usePipeline.ts lines 47-74: one step of the hook's stream-event
handling.  A closed `EventSource` delivers nothing, so a handler fires only
while `esOpen`.  `progress` appends to the capped event log and updates
`latestEvent`; `done` closes the stream and stores the separately fetched
result (`getResults`, here the oracle `fetch`) with status `done`; `error`
closes the stream and stores the message (default "Pipeline failed") with
status `error`. -/
def processEvent (fetch : String → JobResult) (h : HookState)
    (ev : StreamEvent) : HookState :=
  if h.esOpen then
    match ev with
    | .progress e =>
        { h with state :=
            { h.state with events := appendEvent h.state.events e,
                           latestEvent := some e } }
    | .done =>
        { state := { h.state with status := .done,
                                  result := some (fetch (h.state.jobId.getD "")) },
          esOpen := false }
    | .error data =>
        { state := { h.state with status := .error,
                                  error := some (data.getD "Pipeline failed") },
          esOpen := false }
  else h

/-- Processing a whole sequence of stream events in order. -/
def processTrace (fetch : String → JobResult) (h : HookState)
    (evs : List StreamEvent) : HookState :=
  evs.foldl (processEvent fetch) h

/-- The `RunRequest` record, from the api client module (src/unnamed/part_000,
lines 1-5).  `max_leads` is a JavaScript number; an integer models it, so that
non-positive requests are expressible. -/
structure RunRequest where
  url : String
  max_leads : Int
  skip_gpt : Bool
deriving Repr, DecidableEq

/-- Modelled from the spec: the configured `max_leads` bounds (10-5000), also
shown by the form input (src/frontend/src/components/ApolloForm.tsx,
lines 113-114: `min={10} max={5000}`). -/
def minLeadsBound : Int := 10

/-- Modelled from the spec: upper `max_leads` bound. -/
def maxLeadsBound : Int := 5000

/-- Modelled from the spec: request validation of the backend start-job
endpoint (absent from src/): `max_leads` must be an integer within the
configured bounds. -/
def validRequest (r : RunRequest) : Bool :=
  minLeadsBound ≤ r.max_leads && r.max_leads ≤ maxLeadsBound

/-- Modelled from the spec: the backend Job entity (absent from src/):
originating request, status, lead list, stats (cached only on transition to
`done`), and an error description set only on failure. -/
structure Job where
  request : RunRequest
  status : JobStatus
  leads : List Lead
  stats : Option JobStats
  error : Option String
deriving Repr, DecidableEq

/-- The error taxonomy of the spec that the claims need. -/
inductive ApiError where
  | InvalidRequest
  | NotFound
  | NotReady
deriving Repr, DecidableEq

/-- Modelled from the spec: the Job Registry's identifier-to-job mapping. -/
abbrev Registry := List (Nat × Job)

/-- Modelled from the spec: a freshly created job: `running`, no leads yet,
no stats, no error — no stage has completed at creation time. -/
def newJob (r : RunRequest) : Job :=
  { request := r, status := .running, leads := [], stats := none, error := none }

/-- Modelled from the spec: `createJob` of the backend Job Registry (absent
from src/): a violating request fails with `InvalidRequest` synchronously and
no job is created; a valid request allocates a fresh identifier and returns it
immediately, the new job still in its initial `running` state (no stage has
been awaited). -/
def createJob (reg : Registry) (r : RunRequest) :
    Except ApiError (Nat × Registry) :=
  if validRequest r then
    .ok (reg.length, reg ++ [(reg.length, newJob r)])
  else
    .error .InvalidRequest

/-- Modelled from the spec: the Job projection returned by the fetch-result
endpoint: status, total/hit/no-hit counts, stats, and the complete lead
list. -/
def toResult (id : Nat) (j : Job) : JobResult :=
  { job_id := toString id
    status := j.status
    total_leads := j.leads.length
    hit_leads := j.leads.countP (fun l => l.is_hit == some true)
    nohit_leads := j.leads.countP (fun l => !(l.is_hit == some true))
    stats := j.stats
    leads := j.leads
    error := j.error
    csv_path := none }

/-- Modelled from the spec: the backend fetch-result endpoint (absent from
src/; declared as `getResults` in src/unnamed/part_000 lines 65-69): `NotFound`
for an unknown identifier, otherwise the full projection of the current job
snapshot. -/
def getResults (reg : Registry) (id : Nat) : Except ApiError JobResult :=
  match reg.lookup id with
  | none => .error .NotFound
  | some j => .ok (toResult id j)

/-- Identity fields produced by the scrape stage. -/
structure Identity where
  first_name : Option String := none
  last_name : Option String := none
  company : Option String := none
  job_title : Option String := none
  location : Option String := none
deriving Repr, DecidableEq

/-- Modelled from the spec: stage 1 turns a scraped raw record into a Lead
with identity fields only; every other field absent. -/
def scrapeLead (p : Identity) : Lead :=
  { first_name := p.first_name, last_name := p.last_name, company := p.company,
    job_title := p.job_title, location := p.location }

/-- Modelled from the spec: stage 2 (web enrichment) fills profile URL and
website per lead, best effort — the collaborator `f` returns an optional pair;
`none` components model per-lead soft failure. -/
def webEnrich (f : Lead → Option String × Option String) (l : Lead) : Lead :=
  { l with linkedin_url := (f l).1, website := (f l).2 }

/-- Modelled from the spec: stage 3 (contact enrichment) fills email and phone
per lead, best effort. -/
def contactEnrich (g : Lead → Option String × Option String) (l : Lead) : Lead :=
  { l with email := (g l).1, phone := (g l).2 }

/-- Modelled from the spec: stage 5 (AI enrichment) fills activity summary and
conversion angle, only for leads with `is_hit = true`; a provider failure
(`none`) leaves the fields absent. -/
def aiEnrich (ai : Lead → Option (String × String)) (l : Lead) : Lead :=
  if l.is_hit == some true then
    match ai l with
    | some (s, a) => { l with activity_summary := some s,
                              conversion_angle := some a }
    | none => l
  else l

/-- Modelled from the spec: the Pipeline Runner's five sequential stages
(absent from src/), with the external collaborators as parameters.  A scrape
yielding zero leads is stage-fatal (`error` status, no partial result);
otherwise stages 2-5 run in order, stage 5 is skipped entirely when the
request's `skip_gpt` flag is set, and on completion the Result Aggregator's
stats are attached and the job becomes `done`. -/
def runPipeline (r : RunRequest) (scraped : List Identity)
    (f g : Lead → Option String × Option String)
    (ai : Lead → Option (String × String)) : Job :=
  if scraped.isEmpty then
    { request := r, status := .error, leads := [], stats := none,
      error := some "Scraping returned no leads" }
  else
    let l4 := ((scraped.map scrapeLead).map (webEnrich f)
                |>.map (contactEnrich g)).map scoreLead
    let l5 := if r.skip_gpt then l4 else l4.map (aiEnrich ai)
    { request := r, status := .done, leads := l5,
      stats := some (computeStats l5), error := none }

/-- Modelled from the spec: the `total_progress` values one stage emits.  A
stage whose finished predecessors account for cumulative weight `lo`, and
which on completion brings the cumulative weight to `hi`, processing `m`
leads, emits one intermediate event per lead (stage-local
`progress = k / m` for lead `k`, so
`total_progress = lo + (k / m) * (hi - lo)`), then the stage-completion event
with `progress = 1.0` and `total_progress = hi` (the cumulative weight
incremented by the stage's full weight `hi - lo`). -/
def stageTrace (lo hi : ℚ) (m : Nat) : List ℚ :=
  ((List.range m).map
    (fun k : Nat => lo + (((k : ℚ) + 1) / (m : ℚ)) * (hi - lo))) ++ [hi]

/-- Modelled from the spec: the whole job's emitted `total_progress` sequence
for the Pipeline Runner's fixed stage weights 0.3/0.2/0.2/0.1/0.2 (summing
to 1): the five stages run strictly sequentially, stage `i` processing `m i`
leads; the cumulative weights after each stage are 0.3, 0.5, 0.7, 0.8, 1.
The terminal `done` event follows the last element of this sequence, with no
further progress events. -/
def jobTrace (m : Fin 5 → Nat) : List ℚ :=
  stageTrace 0 (3 / 10) (m 0) ++ (stageTrace (3 / 10) (5 / 10) (m 1)
    ++ (stageTrace (5 / 10) (7 / 10) (m 2) ++ (stageTrace (7 / 10) (8 / 10) (m 3)
    ++ stageTrace (8 / 10) 1 (m 4))))

/-- The page size of the results table
(src/frontend/src/components/ResultsTable.tsx, line 6: `PAGE_SIZE = 10`). -/
def pageSize : Nat := 10

/-- The tab selector of the results table (ResultsTable.tsx, line 13). -/
inductive Tab where
  | all
  | hit
  | nohit
deriving Repr, DecidableEq

/-- JavaScript truthiness of the optional `is_hit` field: truthy exactly when
present and `true` (`undefined` and `false` are both falsy). -/
def isHitLead (l : Lead) : Bool := l.is_hit == some true

/-- Lower-casing of a string, character by character
(JavaScript `toLowerCase`). -/
def toLower (s : String) : String := s.map Char.toLower

/-- Containment of `q` as a contiguous substring of `v`
(JavaScript `includes`). -/
def strIncludes (v q : String) : Bool :=
  decide (q.toList <:+: v.toList)

/-- From ResultsTable.tsx lines 28-31: a lead matches the search string when
one of first name, last name, company, job title, email contains the
lower-cased query (an absent field never matches). -/
def matchesSearch (q : String) (l : Lead) : Bool :=
  [l.first_name, l.last_name, l.company, l.job_title, l.email].any
    (fun v => match v with
      | some s => strIncludes (toLower s) q
      | none => false)

/-- From ResultsTable.tsx lines 22-24: the tab filter — `hit` keeps leads with
truthy `is_hit`, `nohit` keeps the rest, `all` keeps everything. -/
def tabFilter (tab : Tab) (leads : List Lead) : List Lead :=
  match tab with
  | .all => leads
  | .hit => leads.filter isHitLead
  | .nohit => leads.filter (fun l => !isHitLead l)

/-- From ResultsTable.tsx lines 21-34: the displayed filtered list — tab
filter, then, when the trimmed search string is nonempty, the search filter
with the lower-cased query. -/
def filteredLeads (leads : List Lead) (tab : Tab) (search : String) :
    List Lead :=
  let list := tabFilter tab leads
  if search.trim ≠ "" then list.filter (matchesSearch (toLower search))
  else list

/-- From ResultsTable.tsx line 37: the displayed page,
`filtered.slice(page * PAGE_SIZE, (page + 1) * PAGE_SIZE)`. -/
def pageLeads (leads : List Lead) (tab : Tab) (search : String) (page : Nat) :
    List Lead :=
  ((filteredLeads leads tab search).drop (page * pageSize)).take pageSize

/-- From ResultsTable.tsx line 41: the hit-tab count, computed on the full
lead list. -/
def hitCount (leads : List Lead) : Nat := (leads.filter isHitLead).length

/-- From ResultsTable.tsx line 42: the no-hit-tab count, computed on the full
lead list. -/
def nohitCount (leads : List Lead) : Nat :=
  (leads.filter (fun l => !isHitLead l)).length

/-- C1: the scorer is the fixed deterministic formula
`score = 40*hasEmail + 30*hasProfileUrl + 20*hasPhone + 10*hasWebsite` with
`isHit = score >= hitThreshold` (default threshold 50): a lead with email and
profile URL but no phone and no website scores 70 and is a hit, a lead with
all four fields absent scores 0 and is not a hit, and for every lead the hit
classification coincides with `hit_score >= 50`. -/
theorem C1_scorer_formula (l : Lead) :
    (l.email.isSome = true → l.linkedin_url.isSome = true → l.phone = none →
      l.website = none →
      leadScore l = 70 ∧ (scoreLead l).hit_score = some 70 ∧
        (scoreLead l).is_hit = some true)
    ∧ (l.email = none → l.linkedin_url = none → l.phone = none →
        l.website = none →
        leadScore l = 0 ∧ (scoreLead l).hit_score = some 0 ∧
          (scoreLead l).is_hit = some false)
    ∧ leadScore l =
        (if l.email.isSome then 40 else 0) +
        (if l.linkedin_url.isSome then 30 else 0) +
        (if l.phone.isSome then 20 else 0) +
        (if l.website.isSome then 10 else 0)
    ∧ (scoreLead l).is_hit =
        some (decide (50 ≤ ((scoreLead l).hit_score).getD 0)) := by
  refine ⟨?_, ?_, rfl, ?_⟩
  · intro he hl hp hw
    simp [leadScore, scoreLead, hitThreshold, he, hl, hp, hw]
  · intro he hl hp hw
    simp [leadScore, scoreLead, hitThreshold, he, hl, hp, hw]
  · simp [scoreLead, hitThreshold]

/-- C1 witness: the scorer theorem evaluated at two concrete leads. -/
theorem C1_scorer_formula_witness :
    (leadScore { email := some "a@b.co", linkedin_url := some "in/a" } = 70
      ∧ (scoreLead { email := some "a@b.co", linkedin_url := some "in/a" }).hit_score
          = some 70
      ∧ (scoreLead { email := some "a@b.co", linkedin_url := some "in/a" }).is_hit
          = some true)
    ∧ (leadScore {} = 0 ∧ (scoreLead {}).hit_score = some 0
        ∧ (scoreLead ({} : Lead)).is_hit = some false) :=
  ⟨(C1_scorer_formula
      { email := some "a@b.co", linkedin_url := some "in/a" }).1
        rfl rfl rfl rfl,
    (C1_scorer_formula {}).2.1 rfl rfl rfl rfl⟩

/-- C2: the job statistics are a pure function of the final lead list: each
coverage percentage is round-half-up of `100 * count / total`; with zero leads
every percentage, derived percentages such as the hit rate, and the average
score equal 0 (division by zero is defined as zero, no error); a 4-lead list
with exactly 2 emails gives `email_pct = 50`. -/
theorem C2_stats_zero_and_rounding (leads : List Lead)
    (h4 : leads.length = 4)
    (h2 : countWith (fun l => l.email.isSome) leads = 2) :
    (∀ ls : List Lead,
      (computeStats ls).email_pct =
          pct (countWith (fun l => l.email.isSome) ls) ls.length
      ∧ (computeStats ls).linkedin_pct =
          pct (countWith (fun l => l.linkedin_url.isSome) ls) ls.length
      ∧ (computeStats ls).phone_pct =
          pct (countWith (fun l => l.phone.isSome) ls) ls.length
      ∧ (computeStats ls).website_pct =
          pct (countWith (fun l => l.website.isSome) ls) ls.length)
    ∧ (∀ c t : Nat, pct c t = if t = 0 then 0 else (2 * (100 * c) + t) / (2 * t))
    ∧ computeStats [] = ⟨0, 0, 0, 0, 0⟩
    ∧ (∀ hits : Nat, hitRate 0 hits = 0)
    ∧ (computeStats leads).email_pct = 50 := by
  refine ⟨fun ls => ⟨rfl, rfl, rfl, rfl⟩, fun c t => rfl, rfl, fun hits => rfl, ?_⟩
  show pct (countWith (fun l => l.email.isSome) leads) leads.length = 50
  rw [h2, h4]
  decide

/-- C2 witness: the statistics theorem evaluated at a concrete 4-lead list
with exactly 2 emails. -/
theorem C2_stats_zero_and_rounding_witness :
    (computeStats
      [{ email := some "a@x.co" }, { email := some "b@x.co" }, {}, {}]).email_pct
      = 50
    ∧ computeStats [] = ⟨0, 0, 0, 0, 0⟩ :=
  ⟨(C2_stats_zero_and_rounding
      [{ email := some "a@x.co" }, { email := some "b@x.co" }, {}, {}]
      (by decide) (by decide)).2.2.2.2,
    (C2_stats_zero_and_rounding
      [{ email := some "a@x.co" }, { email := some "b@x.co" }, {}, {}]
      (by decide) (by decide)).2.2.1⟩

theorem lastN_length (n : Nat) (l : List α) :
    (lastN n l).length = min n l.length := by
  simp [lastN]
  omega

theorem lastN_concat (n : Nat) (l : List α) (a : α) :
    lastN (n + 1) (l ++ [a]) = lastN n l ++ [a] := by
  unfold lastN
  have hlen : (l ++ [a]).length = l.length + 1 := by simp
  rw [hlen]
  have hsub : l.length + 1 - (n + 1) = l.length - n := by omega
  rw [hsub, List.drop_append_of_le_length (by omega)]

theorem lastN_lastN (m n : Nat) (l : List α) :
    lastN m (lastN n l) = lastN (min m n) l := by
  unfold lastN
  rw [List.drop_drop, List.length_drop]
  congr 1
  omega

/-- C3: the per-job progress-event log is capped at the most recent 100
entries: folding the hook's append rule (`[...events.slice(-99), event]`)
over any received event sequence yields exactly the most recent
`min (length, 100)` events in original order — never more than 100, and
exactly the last 100 once the cap is exceeded. -/
theorem C3_event_log_cap (es : List ProgressEvent) :
    es.foldl appendEvent [] = lastN 100 es
    ∧ (es.foldl appendEvent []).length = min es.length 100
    ∧ (es.foldl appendEvent []).length ≤ 100 := by
  have key : es.foldl appendEvent [] = lastN 100 es := by
    induction es using List.reverseRecOn with
    | nil => rfl
    | append_singleton es e ih =>
        rw [List.foldl_append]
        simp only [List.foldl_cons, List.foldl_nil]
        rw [ih]
        unfold appendEvent
        rw [lastN_lastN]
        have h99 : min 99 100 = 99 := by decide
        rw [h99]
        exact (lastN_concat 99 es e).symm
  refine ⟨key, ?_, ?_⟩
  · rw [key, lastN_length]; omega
  · rw [key, lastN_length]; omega

theorem processTrace_closed (fetch : String → JobResult) (h : HookState)
    (hc : h.esOpen = false) (evs : List StreamEvent) :
    processTrace fetch h evs = h := by
  induction evs with
  | nil => rfl
  | cons e t ih =>
      show processTrace fetch (processEvent fetch h e) t = h
      have hstep : processEvent fetch h e = h := by
        unfold processEvent
        rw [hc]
        simp
      rw [hstep, ih]

/-- C4: the progress stream has exactly the three event types `progress`,
`done` and `error` with the stated payloads and terminal semantics:
`progress` appends its `ProgressEvent` payload, `done` carries nothing
further — the client separately fetches the result (oracle `fetch`), which
becomes the stored result with status `done`; `error` exposes its message
(default "Pipeline failed") as the failure description with status `error`;
both terminals close the stream, and a closed stream processes no further
events. -/
theorem C4_stream_terminal (fetch : String → JobResult) (h : HookState)
    (hopen : h.esOpen = true) :
    (∀ e, processEvent fetch h (.progress e) =
      { h with state :=
          { h.state with events := appendEvent h.state.events e,
                         latestEvent := some e } })
    ∧ (processEvent fetch h .done).state.status = .done
    ∧ (processEvent fetch h .done).state.result =
        some (fetch (h.state.jobId.getD ""))
    ∧ (processEvent fetch h .done).esOpen = false
    ∧ (∀ data, (processEvent fetch h (.error data)).state.status = .error
        ∧ (processEvent fetch h (.error data)).state.error =
            some (data.getD "Pipeline failed")
        ∧ (processEvent fetch h (.error data)).esOpen = false)
    ∧ (∀ evs, processTrace fetch (processEvent fetch h .done) evs =
        processEvent fetch h .done)
    ∧ (∀ data evs, processTrace fetch (processEvent fetch h (.error data)) evs =
        processEvent fetch h (.error data)) := by
  refine ⟨?_, ?_, ?_, ?_, ?_, ?_, ?_⟩
  · intro e; unfold processEvent; rw [hopen]; simp
  · unfold processEvent; rw [hopen]; simp
  · unfold processEvent; rw [hopen]; simp
  · unfold processEvent; rw [hopen]; simp
  · intro data
    refine ⟨?_, ?_, ?_⟩ <;> (unfold processEvent; rw [hopen]; simp)
  · intro evs
    apply processTrace_closed
    unfold processEvent; rw [hopen]; simp
  · intro data evs
    apply processTrace_closed
    unfold processEvent; rw [hopen]; simp

/-- C4 witness: the stream theorem evaluated at a concrete open hook state
and a trivial fetch oracle. -/
theorem C4_stream_terminal_witness :
    (processEvent (fun _ => toResult 0 (newJob { url := "u", max_leads := 10, skip_gpt := false }))
        (afterStart "0" initialHook) .done).state.status = .done
    ∧ (processEvent (fun _ => toResult 0 (newJob { url := "u", max_leads := 10, skip_gpt := false }))
        (afterStart "0" initialHook) .done).esOpen = false :=
  ⟨(C4_stream_terminal
      (fun _ => toResult 0 (newJob { url := "u", max_leads := 10, skip_gpt := false }))
      (afterStart "0" initialHook) rfl).2.1,
    (C4_stream_terminal
      (fun _ => toResult 0 (newJob { url := "u", max_leads := 10, skip_gpt := false }))
      (afterStart "0" initialHook) rfl).2.2.2.1⟩

theorem stageTrace_ne_nil (lo hi : ℚ) (m : Nat) : stageTrace lo hi m ≠ [] := by
  simp [stageTrace]

theorem stageTrace_getLast (lo hi : ℚ) (m : Nat) :
    (stageTrace lo hi m).getLast? = some hi := by
  unfold stageTrace
  exact List.getLast?_concat _

theorem stageTrace_mem_bounds (lo hi : ℚ) (m : Nat) (hle : lo ≤ hi) :
    ∀ x ∈ stageTrace lo hi m, lo ≤ x ∧ x ≤ hi := by
  intro x hx
  rcases List.mem_append.mp hx with hx | hx
  · rcases List.mem_map.mp hx with ⟨k, hk, rfl⟩
    have hkm : k < m := List.mem_range.mp hk
    have hm : (0 : ℚ) < m := by
      exact_mod_cast lt_of_le_of_lt (Nat.zero_le k) hkm
    have hq0 : (0 : ℚ) ≤ ((k : ℚ) + 1) / m := by positivity
    have hq1 : ((k : ℚ) + 1) / m ≤ 1 := by
      rw [div_le_one hm]
      exact_mod_cast hkm
    have hw : (0 : ℚ) ≤ hi - lo := sub_nonneg.mpr hle
    constructor
    · nlinarith [mul_nonneg hq0 hw]
    · nlinarith [mul_le_of_le_one_left hw hq1]
  · rw [List.mem_singleton.mp hx]
    exact ⟨hle, le_refl hi⟩

theorem stageTrace_chain (lo hi : ℚ) (m : Nat) (hle : lo ≤ hi) :
    (stageTrace lo hi m).Chain' (· ≤ ·) := by
  unfold stageTrace
  apply List.Chain'.append
  · apply List.chain'_iff_pairwise.mpr
    apply List.pairwise_map.mpr
    apply (List.pairwise_lt_range m).imp
    intro a b hab
    have hm : (0 : ℚ) ≤ m := Nat.cast_nonneg m
    have h1 : ((a : ℚ) + 1) / m ≤ ((b : ℚ) + 1) / m := by
      apply div_le_div_of_nonneg_right ?_ hm
      exact_mod_cast Nat.succ_le_succ hab.le
    have hw : (0 : ℚ) ≤ hi - lo := sub_nonneg.mpr hle
    nlinarith [mul_le_mul_of_nonneg_right h1 hw]
  · exact List.chain'_singleton hi
  · intro x hx y hy
    have hx2 : x ∈ stageTrace lo hi m := by
      unfold stageTrace
      exact List.mem_append.mpr (Or.inl (List.mem_of_mem_getLast? hx))
    rw [List.head?_cons] at hy
    have hy2 : y = hi := by
      cases hy
      rfl
    rw [hy2]
    exact (stageTrace_mem_bounds lo hi m hle x hx2).2

theorem chain_glue (b : ℚ) (l1 l2 : List ℚ)
    (h1 : l1.Chain' (· ≤ ·)) (h2 : l2.Chain' (· ≤ ·))
    (hl : l1.getLast? = some b) (hmem : ∀ x ∈ l2, b ≤ x) :
    (l1 ++ l2).Chain' (· ≤ ·) := by
  apply List.Chain'.append h1 h2
  intro x hx y hy
  rw [hl, Option.mem_some_iff] at hx
  rw [← hx]
  exact hmem y (List.mem_of_mem_head? hy)

theorem glue_step (lo mid hi last : ℚ) (l1 l2 : List ℚ)
    (h1c : l1.Chain' (· ≤ ·)) (h1m : ∀ x ∈ l1, lo ≤ x ∧ x ≤ mid)
    (h1l : l1.getLast? = some mid)
    (h2c : l2.Chain' (· ≤ ·)) (h2m : ∀ x ∈ l2, mid ≤ x ∧ x ≤ hi)
    (h2l : l2.getLast? = some last) (h2n : l2 ≠ [])
    (hmid : lo ≤ mid) (hhi : mid ≤ hi) :
    (l1 ++ l2).Chain' (· ≤ ·)
    ∧ (∀ x ∈ l1 ++ l2, lo ≤ x ∧ x ≤ hi)
    ∧ (l1 ++ l2).getLast? = some last
    ∧ l1 ++ l2 ≠ [] := by
  refine ⟨chain_glue mid l1 l2 h1c h2c h1l (fun x hx => (h2m x hx).1),
    ?_, ?_, ?_⟩
  · intro x hx
    rcases List.mem_append.mp hx with h | h
    · exact ⟨(h1m x h).1, le_trans (h1m x h).2 hhi⟩
    · exact ⟨le_trans hmid (h2m x h).1, (h2m x h).2⟩
  · rw [List.getLast?_append_of_ne_nil l1 h2n]
    exact h2l
  · intro hcontra
    exact h2n (List.append_eq_nil.mp hcontra).2

/-- C5: for every job (whatever per-stage lead counts), the `total_progress`
values of the successive progress events form a non-decreasing sequence of
fractions in [0, 1] whose last element — the one emitted immediately before
the terminal `done` event — is exactly 1. -/
theorem C5_total_progress (m : Fin 5 → Nat) :
    (jobTrace m).Chain' (· ≤ ·)
    ∧ (∀ x ∈ jobTrace m, 0 ≤ x ∧ x ≤ 1)
    ∧ (jobTrace m).getLast? = some 1 := by
  have g34 := glue_step (7/10) (8/10) 1 1
      (stageTrace (7/10) (8/10) (m 3)) (stageTrace (8/10) 1 (m 4))
      (stageTrace_chain _ _ _ (by norm_num))
      (stageTrace_mem_bounds _ _ _ (by norm_num))
      (stageTrace_getLast _ _ _)
      (stageTrace_chain _ _ _ (by norm_num))
      (stageTrace_mem_bounds _ _ _ (by norm_num))
      (stageTrace_getLast _ _ _)
      (stageTrace_ne_nil _ _ _) (by norm_num) (by norm_num)
  have g234 := glue_step (5/10) (7/10) 1 1
      (stageTrace (5/10) (7/10) (m 2))
      (stageTrace (7/10) (8/10) (m 3) ++ stageTrace (8/10) 1 (m 4))
      (stageTrace_chain _ _ _ (by norm_num))
      (stageTrace_mem_bounds _ _ _ (by norm_num))
      (stageTrace_getLast _ _ _)
      g34.1 g34.2.1 g34.2.2.1 g34.2.2.2 (by norm_num) (by norm_num)
  have g1234 := glue_step (3/10) (5/10) 1 1
      (stageTrace (3/10) (5/10) (m 1))
      (stageTrace (5/10) (7/10) (m 2)
        ++ (stageTrace (7/10) (8/10) (m 3) ++ stageTrace (8/10) 1 (m 4)))
      (stageTrace_chain _ _ _ (by norm_num))
      (stageTrace_mem_bounds _ _ _ (by norm_num))
      (stageTrace_getLast _ _ _)
      g234.1 g234.2.1 g234.2.2.1 g234.2.2.2 (by norm_num) (by norm_num)
  have g01234 := glue_step 0 (3/10) 1 1
      (stageTrace 0 (3/10) (m 0))
      (stageTrace (3/10) (5/10) (m 1)
        ++ (stageTrace (5/10) (7/10) (m 2)
          ++ (stageTrace (7/10) (8/10) (m 3) ++ stageTrace (8/10) 1 (m 4))))
      (stageTrace_chain _ _ _ (by norm_num))
      (stageTrace_mem_bounds _ _ _ (by norm_num))
      (stageTrace_getLast _ _ _)
      g1234.1 g1234.2.1 g1234.2.2.1 g1234.2.2.2 (by norm_num) (by norm_num)
  exact ⟨g01234.1, g01234.2.1, g01234.2.2.1⟩

/-- C6: starting a job accepts `{url, max_leads, skip_gpt}`; validity is
exactly `10 ≤ max_leads ≤ 5000` (hence positive); a violating request fails
with `InvalidRequest` synchronously, producing no job; a valid request
returns a freshly allocated identifier immediately, the job still in its
initial `running` state with no leads and no stats (no stage awaited). -/
theorem C6_start_job (reg : Registry) (r bad : RunRequest)
    (hv : validRequest r = true) (hbad : validRequest bad = false) :
    createJob reg r = .ok (reg.length, reg ++ [(reg.length, newJob r)])
    ∧ (newJob r).status = .running
    ∧ (newJob r).leads = []
    ∧ (newJob r).stats = none
    ∧ 0 < r.max_leads
    ∧ createJob reg bad = .error .InvalidRequest
    ∧ (∀ q : RunRequest, validRequest q = true ↔
        minLeadsBound ≤ q.max_leads ∧ q.max_leads ≤ maxLeadsBound) := by
  have hchar : ∀ q : RunRequest, validRequest q = true ↔
      minLeadsBound ≤ q.max_leads ∧ q.max_leads ≤ maxLeadsBound := by
    intro q
    unfold validRequest
    rw [Bool.and_eq_true, decide_eq_true_iff, decide_eq_true_iff]
  refine ⟨?_, rfl, rfl, rfl, ?_, ?_, hchar⟩
  · unfold createJob
    rw [hv]
    rfl
  · have h := (hchar r).mp hv
    have : (10 : Int) ≤ r.max_leads := h.1
    omega
  · unfold createJob
    rw [hbad]
    rfl

/-- C6 witness: job creation evaluated at a valid and an invalid concrete
request. -/
theorem C6_start_job_witness :
    createJob [] { url := "u", max_leads := 200, skip_gpt := false } =
      .ok (0, [(0, newJob { url := "u", max_leads := 200, skip_gpt := false })])
    ∧ createJob [] { url := "u", max_leads := 0, skip_gpt := true } =
        .error .InvalidRequest :=
  ⟨(C6_start_job [] { url := "u", max_leads := 200, skip_gpt := false }
      { url := "u", max_leads := 0, skip_gpt := true }
      (by decide) (by decide)).1,
    (C6_start_job [] { url := "u", max_leads := 200, skip_gpt := false }
      { url := "u", max_leads := 0, skip_gpt := true }
      (by decide) (by decide)).2.2.2.2.2.1⟩

/-- C7: fetching a result by job identifier fails with `NotFound` for an
unknown identifier, and otherwise returns the full Job projection — status,
total/hit/no-hit counts (which partition the lead list), the job's cached
stats, and the complete lead list; for a freshly created (still running) job
the projection is the `running`-status partial view: current leads and no
stats. -/
theorem C7_fetch_result (reg found : Registry) (missId foundId : Nat) (j : Job)
    (hmiss : reg.lookup missId = none)
    (hfound : found.lookup foundId = some j) :
    getResults reg missId = .error .NotFound
    ∧ getResults found foundId = .ok (toResult foundId j)
    ∧ (toResult foundId j).status = j.status
    ∧ (toResult foundId j).leads = j.leads
    ∧ (toResult foundId j).total_leads = j.leads.length
    ∧ (toResult foundId j).hit_leads = hitCount j.leads
    ∧ (toResult foundId j).nohit_leads = nohitCount j.leads
    ∧ (toResult foundId j).hit_leads + (toResult foundId j).nohit_leads =
        (toResult foundId j).total_leads
    ∧ (toResult foundId j).stats = j.stats
    ∧ (toResult foundId j).error = j.error
    ∧ (∀ req : RunRequest,
        (toResult foundId (newJob req)).status = .running
        ∧ (toResult foundId (newJob req)).stats = none
        ∧ (toResult foundId (newJob req)).leads = (newJob req).leads) := by
  refine ⟨?_, ?_, rfl, rfl, rfl, ?_, ?_, ?_, rfl, rfl, fun req => ⟨rfl, rfl, rfl⟩⟩
  · unfold getResults
    rw [hmiss]
  · unfold getResults
    rw [hfound]
  · show j.leads.countP isHitLead = hitCount j.leads
    rw [hitCount, List.countP_eq_length_filter]
  · show j.leads.countP (fun l => !isHitLead l) = nohitCount j.leads
    rw [nohitCount, List.countP_eq_length_filter]
  · show j.leads.countP isHitLead + j.leads.countP (fun l => !isHitLead l) =
        j.leads.length
    rw [List.countP_eq_length_filter, List.countP_eq_length_filter]
    induction j.leads with
    | nil => rfl
    | cons a t ih =>
        cases ha : isHitLead a <;> simp [List.filter_cons, ha] <;> omega

/-- C7 witness: the fetch-result theorem evaluated at an empty registry and a
one-job registry holding a freshly created job. -/
theorem C7_fetch_result_witness :
    getResults [] 0 = .error .NotFound
    ∧ getResults [(0, newJob { url := "u", max_leads := 10, skip_gpt := false })] 0 =
        .ok (toResult 0 (newJob { url := "u", max_leads := 10, skip_gpt := false }))
    ∧ (toResult 0 (newJob { url := "u", max_leads := 10, skip_gpt := false })).stats
        = none :=
  ⟨(C7_fetch_result [] [(0, newJob { url := "u", max_leads := 10, skip_gpt := false })]
      0 0 (newJob { url := "u", max_leads := 10, skip_gpt := false })
      (by decide) (by decide)).1,
    (C7_fetch_result [] [(0, newJob { url := "u", max_leads := 10, skip_gpt := false })]
      0 0 (newJob { url := "u", max_leads := 10, skip_gpt := false })
      (by decide) (by decide)).2.1,
    ((C7_fetch_result [] [(0, newJob { url := "u", max_leads := 10, skip_gpt := false })]
      0 0 (newJob { url := "u", max_leads := 10, skip_gpt := false })
      (by decide) (by decide)).2.2.2.2.2.2.2.2.2.2
      { url := "u", max_leads := 10, skip_gpt := false }).2.1⟩

/-- C8: when the request's `skip_gpt` flag is set, no lead in the job's final
result has an activity summary or a conversion angle populated — for every
lead, including hits. -/
theorem C8_skip_gpt (r : RunRequest) (scraped : List Identity)
    (f g : Lead → Option String × Option String)
    (ai : Lead → Option (String × String))
    (hskip : r.skip_gpt = true) :
    ∀ l ∈ (runPipeline r scraped f g ai).leads,
      l.activity_summary = none ∧ l.conversion_angle = none := by
  intro l hl
  unfold runPipeline at hl
  by_cases hempty : scraped.isEmpty
  · rw [if_pos hempty] at hl
    simp at hl
  · rw [if_neg hempty] at hl
    simp only [hskip, if_true] at hl
    simp only [List.map_map, List.mem_map] at hl
    obtain ⟨p, _, rfl⟩ := hl
    simp [Function.comp, scoreLead, contactEnrich, webEnrich, scrapeLead]

/-- C8 witness: the skip-AI theorem at a concrete skipping request and a
one-lead scrape. -/
theorem C8_skip_gpt_witness :
    ({ hit_score := some 0, is_hit := some false } : Lead).activity_summary = none
    ∧ ({ hit_score := some 0, is_hit := some false } : Lead).conversion_angle = none :=
  C8_skip_gpt { url := "u", max_leads := 10, skip_gpt := true } [{}]
    (fun _ => (none, none)) (fun _ => (none, none)) (fun _ => none) rfl
    { hit_score := some 0, is_hit := some false } (by decide)

/-- C9: from any hook state, `reset` closes any open event stream and returns
the state to exactly the initial value (`idle`, no job id, empty events, no
latest event, no result, no error); it is idempotent, and reset-after-start
equals the never-started state. -/
theorem C9_reset (h : HookState) (jid : String) :
    reset h = initialHook
    ∧ (reset h).esOpen = false
    ∧ (reset h).state = initialState
    ∧ (reset h).state =
        { status := .idle, jobId := none, events := [], latestEvent := none,
          result := none, error := none }
    ∧ reset (reset h) = reset h
    ∧ reset (afterStart jid h) = initialHook :=
  ⟨rfl, rfl, rfl, rfl, rfl, rfl⟩

theorem filter_partition (p : α → Bool) (l : List α) :
    (l.filter p).length + (l.filter (fun a => !p a)).length = l.length := by
  induction l with
  | nil => rfl
  | cons a t ih =>
      cases ha : p a <;> simp [List.filter_cons, ha] <;> omega

/-- C10: the results-table filtering partitions the lead list: the hit-tab
count plus the no-hit-tab count equals the total lead count (a lead whose
`is_hit` field is absent is counted as no-hit); each tab's displayed filtered
list, with any search string, is a subsequence of the original list in
original order; and every displayed page has at most `pageSize = 10` leads. -/
theorem C10_table_partition (leads : List Lead) (tab : Tab) (search : String)
    (page : Nat) :
    hitCount leads + nohitCount leads = leads.length
    ∧ (∀ l : Lead, isHitLead { l with is_hit := none } = false)
    ∧ (∀ l : Lead, isHitLead { l with is_hit := some false } = false)
    ∧ (filteredLeads leads tab search).Sublist leads
    ∧ (pageLeads leads tab search page).length ≤ pageSize
    ∧ pageSize = 10 := by
  refine ⟨filter_partition isHitLead leads, fun l => rfl, fun l => rfl,
    ?_, ?_, rfl⟩
  · have htab : (tabFilter tab leads).Sublist leads := by
      cases tab with
      | all => exact List.Sublist.refl leads
      | hit => exact List.filter_sublist leads
      | nohit => exact List.filter_sublist leads
    unfold filteredLeads
    by_cases hs : search.trim ≠ ""
    · rw [if_pos hs]
      exact List.Sublist.trans (List.filter_sublist _) htab
    · rw [if_neg hs]
      exact htab
  · unfold pageLeads
    exact List.length_take_le _ _

end Leadgen
